import Mathlib

/-!
Verification development for the ESG company scraper (`temp.py`,
class `ESGCompanyScraper`).  The Python code is shallowly embedded:

* Python dicts holding one article become the `Article` structure; a key
  that a stage has not (yet) written is `none`.
* Python strings are Lean `String`s; `str.lower()` is modelled by
  `pyLower` (ASCII lowering, which agrees with Python on every string
  this program manipulates).
* `re.findall(r"\b<kw>\b", content)` for the program's keywords (which
  all start and end with word characters and contain no regex
  metacharacters beyond those escaped by `re.escape`) is modelled by
  `countWord`, a non-overlapping scan with word-boundary checks.
* `str.count(pat)` is modelled by `countSubstr`, a non-overlapping scan.
* Browser navigation, the DOM and the regex quote patterns are the
  environment: they enter as explicit parameters (`ContentFetch`
  outcomes, candidate-article lists per search strategy, quote-match
  lists), and the control flow that consumes them is translated from
  the source.
-/

/-- Character-level model of Python `str.lower` for the ASCII text this
program manipulates (`Char.toLower` lowers exactly the ASCII uppercase
letters). -/
def pyLower (s : String) : String :=
  ⟨s.data.map Char.toLower⟩

/-- Word characters of the `\b` boundary in Python regexes, ASCII range
(`[a-zA-Z0-9_]`). -/
def isWordChar (c : Char) : Bool :=
  c.isAlpha || c.isDigit || c = '_'

/-- Match of a keyword at the head of `s` with `\b` boundaries on both
sides, `prev` being the character just before the current position.
Valid for keywords that start and end with word characters, which holds
for every keyword list in the source. -/
def wordBoundaryMatch (kw : List Char) (prev : Option Char) (s : List Char) : Bool :=
  kw.isPrefixOf s &&
  (match prev with
   | none => true
   | some c => !isWordChar c) &&
  (match (s.drop kw.length).head? with
   | none => true
   | some c => !isWordChar c)

/-- Scan for non-overlapping `\b kw \b` matches, as `re.findall` does: a
match consumes its text, and the boundary of the next candidate looks
back at the last consumed character.  The `skip` counter tracks
characters of a match still to be consumed. -/
def countWordAux (kw : List Char) : Option Char → Nat → List Char → Nat
  | _, _, [] => 0
  | _, skip + 1, c :: rest => countWordAux kw (some c) skip rest
  | prev, 0, c :: rest =>
    if wordBoundaryMatch kw prev (c :: rest) then
      1 + countWordAux kw (some c) (kw.length - 1) rest
    else
      countWordAux kw (some c) 0 rest

/-- Number of non-overlapping whole-word matches of `kw` in `content`,
modelling `len(re.findall(r"\b" + re.escape(kw) + r"\b", content))`. -/
def countWord (kw content : String) : Nat :=
  countWordAux kw.data none 0 content.data

/-- Scan for non-overlapping occurrences of a plain substring, as Python
`str.count` does. -/
def countSubstrAux (pat : List Char) : Nat → List Char → Nat
  | _, [] => 0
  | skip + 1, _ :: rest => countSubstrAux pat skip rest
  | 0, c :: rest =>
    if pat.isPrefixOf (c :: rest) then
      1 + countSubstrAux pat (pat.length - 1) rest
    else
      countSubstrAux pat 0 rest

/-- Number of non-overlapping occurrences of `pat` in `s`, modelling
Python `s.count(pat)` for non-empty `pat`. -/
def countSubstr (pat s : String) : Nat :=
  countSubstrAux pat.data 0 s.data

/-- Substring test over character lists, modelling Python `pat in s`. -/
def substrAux (pat : List Char) : List Char → Bool
  | [] => pat.isEmpty
  | c :: rest => pat.isPrefixOf (c :: rest) || substrAux pat rest

/-- Substring test, modelling Python `pat in s` for strings. -/
def substrB (pat s : String) : Bool :=
  substrAux pat.data s.data

/-- One extracted quote (`temp.py`, `extract_quotes`). -/
structure Quote where
  text : String
  speaker : String
  pattern : String
deriving Repr, DecidableEq

/-- The article record built incrementally by the pipeline
(`temp.py`).  Discovery-stage keys are always present; every
later-stage key is `Option`-valued, `none` meaning the Python dict does
not have the key.  `esg_theme_counts` is the (environmental, social,
governance) triple; `esg_keywords` likewise. -/
structure Article where
  title : String := ""
  date : String := ""
  link : String := ""
  excerpt : String := ""
  source : String := ""
  search_method : String := ""
  company : String := ""
  full_content : Option String := none
  categories : Option (List String) := none
  mention_count : Option Nat := none
  relevant_paragraphs : Option (List String) := none
  esg_theme_counts : Option (Nat × Nat × Nat) := none
  esg_keywords : Option (List String × List String × List String) := none
  primary_esg_focus : Option String := none
  sustainable_finance_mentions : Option Nat := none
  sustainable_finance_keywords : Option (List String) := none
  sustainable_finance_focus : Option Bool := none
  sentiment_score : Option ℚ := none
  sentiment : Option String := none
  positive_words : Option Nat := none
  negative_words : Option Nat := none
  quotes : Option (List Quote) := none
  quote_count : Option Nat := none
deriving Repr

/-- The `company_variations` table (`temp.py` lines 46-67), in source
order. -/
def company_variations : List (String × List String) :=
  [ ("jpmorgan", ["jpmorgan", "jp morgan", "j.p. morgan", "jpm", "jpmc", "j.p. morgan chase", "jpmorgan chase"]),
    ("goldman sachs", ["goldman sachs", "goldman", "goldman sachs group", "gs"]),
    ("blackrock", ["blackrock", "black rock"]),
    ("morgan stanley", ["morgan stanley", "ms"]),
    ("citigroup", ["citigroup", "citi", "citibank"]),
    ("bank of america", ["bank of america", "bofa", "bac", "bank of america corporation"]),
    ("wells fargo", ["wells fargo", "wf", "wells"]),
    ("microsoft", ["microsoft", "msft", "microsoft corporation"]),
    ("apple", ["apple", "aapl", "apple inc", "apple inc."]),
    ("amazon", ["amazon", "amzn", "amazon.com", "amazon.com inc", "amazon inc"]),
    ("google", ["google", "googl", "goog", "alphabet", "alphabet inc"]),
    ("facebook", ["facebook", "meta", "fb", "meta platforms"]),
    ("tesla", ["tesla", "tsla", "tesla inc", "tesla motors"]),
    ("nvidia", ["nvidia", "nvda"]),
    ("exxonmobil", ["exxonmobil", "exxon mobil", "exxon", "xom"]),
    ("chevron", ["chevron", "cvx", "chevron corporation"]),
    ("shell", ["shell", "royal dutch shell", "rdsa"]),
    ("bp", ["bp", "british petroleum", "bp plc"]),
    ("unilever", ["unilever", "ul"]),
    ("nestle", ["nestle", "nestlé", "nsrgy"]) ]

/-- Character-level model of Python `s.replace(" ", "")`: drop every
space. -/
def removeSpaces (s : String) : String :=
  ⟨s.data.filter (fun c => c != ' ')⟩

/-- Translation of `normalize_company_name` (`temp.py` lines 69-80):
lower the input, return the first table entry whose variant list
contains it, otherwise the lowered input with two synthesized
variants. -/
def normalize_company_name (company_name : String) : String × List String :=
  let company_lower := pyLower company_name
  match company_variations.find? (fun e => e.2.contains company_lower) with
  | some e => e
  | none => (company_lower, [company_lower, removeSpaces company_lower])

/-- Trace of one `safe_get` run (`temp.py` lines 82-96): `result` is the
returned value (`none` would be Python falling off the loop, which
needs `retries = 0`), `attempts` the number of navigation attempts
performed, `sleeps` the number of `time.sleep(retry_delay)` calls.
`outcome i` tells whether the i-th navigation attempt succeeds; the
loop is translated with `remaining = retries - attempt`. -/
def safe_get_loop (outcome : Nat → Bool) (attempt : Nat) : Nat → Option Bool × Nat × Nat
  | 0 => (none, 0, 0)
  | remaining + 1 =>
    if outcome attempt then
      (some true, 1, 0)
    else if remaining = 0 then
      (some false, 1, 0)
    else
      let r := safe_get_loop outcome (attempt + 1) remaining
      (r.1, r.2.1 + 1, r.2.2 + 1)

/-- Entry point of the `safe_get` model: run the retry loop from attempt
zero. -/
def safe_get (outcome : Nat → Bool) (retries : Nat) : Option Bool × Nat × Nat :=
  safe_get_loop outcome 0 retries

/-- Append guarded by the link-dedup check of `temp.py` lines 297-299
and 353-355: `if not any(a["link"] == link for a in articles)`. -/
def appendIfNewLink (articles : List Article) (a : Article) : List Article :=
  if articles.any (fun b => b.link == a.link) then articles else articles ++ [a]

/-- Fold the dedup-append over a list of candidate articles, the way the
browse-filter and google-search loops do. -/
def dedupAppendAll (articles found : List Article) : List Article :=
  found.foldl appendIfNewLink articles

/-- Strategy-chain accumulation of `search_esg_today_for_company`
(`temp.py` lines 98-366).  The candidate articles each strategy parses
out of the environment are parameters; the thresholds and the presence
or absence of a dedup check are from the source: direct-search results
are appended unconditionally, browse-filter (entered when fewer than 3
articles) and google-search (entered when fewer than 2) append with the
link-dedup check. -/
def search_esg_today_for_company (direct browse google : List Article) : List Article :=
  let a1 := [] ++ direct
  let a2 := if a1.length < 3 then dedupAppendAll a1 browse else a1
  if a2.length < 2 then dedupAppendAll a2 google else a2

/-- Discovery part of `run_complete_analysis` (`temp.py` lines
971-977): run the strategy chain, then, when it produced fewer than 3
articles, extend with the alternate-source articles with no dedup
check. -/
def run_complete_analysis_discovery (direct browse google alt : List Article) : List Article :=
  let articles := search_esg_today_for_company direct browse google
  if articles.length < 3 then articles ++ alt else articles

/-- Environment outcome of fetching one article page in
`get_article_content`: navigation failure, no content selector
matching, an exception raised during extraction (carrying `str(e)`), or
success with the paragraph texts, the raw container text, the category
texts and an optionally re-resolved date. -/
inductive ContentFetch where
  | navFail : ContentFetch
  | noElement : ContentFetch
  | raised : String → ContentFetch
  | ok : List String → String → List String → Option String → ContentFetch

/-- Per-article body of `get_article_content` (`temp.py` lines
393-489).  The three failure arms write the failure sentinel,
`mention_count = 0` and empty `relevant_paragraphs` exactly as the
source does; the success arm joins the non-empty paragraphs, falls back
to the raw container text under 100 characters, counts whole-word
variant mentions in the lowered content and keeps the paragraphs
containing a variant.  In the `raised` arm the fields written before
the exception are modelled as not yet written. -/
def get_article_content_one (fetch : ContentFetch) (a : Article) : Article :=
  match fetch with
  | .navFail =>
    { a with full_content := some "Content extraction failed - page could not be loaded"
             mention_count := some 0
             relevant_paragraphs := some [] }
  | .noElement =>
    { a with full_content := some "Content extraction failed - content element not found"
             mention_count := some 0
             relevant_paragraphs := some [] }
  | .raised msg =>
    { a with full_content := some ("Content extraction failed: " ++ msg)
             mention_count := some 0
             relevant_paragraphs := some [] }
  | .ok paragraphs rawText cats newDate =>
    let ptexts := paragraphs.filter (fun p => p != "")
    let joined := String.intercalate "\n" ptexts
    let content := if joined.length < 100 then rawText else joined
    let variations := (normalize_company_name a.company).2
    let mentions := variations.foldl (fun acc v => acc + countWord v (pyLower content)) 0
    let relevant := ptexts.filter (fun p => variations.any (fun v => substrB v (pyLower p)))
    { a with categories := some cats
             date := if a.date = "Date not found" then newDate.getD a.date else a.date
             full_content := some content
             mention_count := some mentions
             relevant_paragraphs := some relevant }

/-- List form of `get_article_content`: the per-article body runs inside
a `try/except`, so each article is processed independently and the loop
always continues to the next one. -/
def get_article_content (fetch : Nat → ContentFetch) : List Article → List Article
  | [] => []
  | a :: rest =>
    get_article_content_one (fetch 0) a :: get_article_content (fun i => fetch (i + 1)) rest

/-- Environmental keyword list of `analyze_esg_themes` (`temp.py` lines
497-502). -/
def esg_environmental : List String :=
  [ "climate", "carbon", "emissions", "renewable", "sustainable",
    "green", "environment", "pollution", "waste", "recycling",
    "biodiversity", "conservation", "energy efficiency", "net zero",
    "greenhouse gas", "ghg", "carbon neutral", "carbon footprint" ]

/-- Social keyword list of `analyze_esg_themes` (`temp.py` lines
503-509). -/
def esg_social : List String :=
  [ "diversity", "inclusion", "equity", "human rights", "labor",
    "community", "health", "safety", "wellbeing", "stakeholder",
    "employee", "workforce", "social impact", "ethical", "dei",
    "equal opportunity", "gender", "racial", "discrimination",
    "accessibility", "social justice", "fair trade" ]

/-- Governance keyword list of `analyze_esg_themes` (`temp.py` lines
510-516). -/
def esg_governance : List String :=
  [ "board", "executive", "compensation", "transparency", "disclosure",
    "compliance", "risk management", "ethics", "corruption", "bribery",
    "accountability", "shareholder", "voting", "audit", "regulatory",
    "corporate governance", "oversight", "fiduciary", "code of conduct",
    "conflict of interest", "whistleblower", "diversity targets" ]

/-- Total whole-word match count of a keyword list in a content string,
the accumulation pattern shared by `analyze_esg_themes` and
`add_sustainable_finance_data`. -/
def themeCount (kws : List String) (content : String) : Nat :=
  kws.foldl (fun acc kw => acc + countWord kw content) 0

/-- Python `max(theme_counts.items(), key=lambda x: x[1])` over the
insertion order environmental, social, governance: a later item wins
only with a strictly greater count. -/
def esgFocus (e s g : Nat) : String × Nat :=
  let m1 := if s > e then ("social", s) else ("environmental", e)
  if g > m1.2 then ("governance", g) else m1

/-- Per-article body of `analyze_esg_themes` (`temp.py` lines 521-561):
skip articles with a missing or empty `full_content`, otherwise count
whole-word keyword matches per theme in the lowered content, record the
matched keywords, and set the primary focus to the maximal theme, or
"undetermined" when the maximal count is zero.  The source stores the
matched keywords through `list(set(...))`; the model keeps them in list
order, which no claim depends on. -/
def analyze_esg_themes_one (a : Article) : Article :=
  match a.full_content with
  | none => a
  | some fc =>
    if fc = "" then a
    else
      let content := pyLower fc
      let e := themeCount esg_environmental content
      let s := themeCount esg_social content
      let g := themeCount esg_governance content
      let m := esgFocus e s g
      { a with esg_theme_counts := some (e, s, g)
               esg_keywords := some
                 (esg_environmental.filter (fun kw => countWord kw content != 0),
                  esg_social.filter (fun kw => countWord kw content != 0),
                  esg_governance.filter (fun kw => countWord kw content != 0))
               primary_esg_focus := some (if m.2 > 0 then m.1 else "undetermined") }

/-- List form of `analyze_esg_themes`. -/
def analyze_esg_themes (articles : List Article) : List Article :=
  articles.map analyze_esg_themes_one

/-- Sustainable-finance keyword list of `add_sustainable_finance_data`
(`temp.py` lines 583-589). -/
def sustainable_finance_kw : List String :=
  [ "green bond", "sustainable bond", "social bond",
    "sustainability-linked", "transition finance", "esg fund",
    "impact investing", "socially responsible", "sri",
    "sustainable finance", "green finance", "climate finance",
    "net zero financing", "carbon neutral investment", "stranded assets" ]

/-- Per-article body of `add_sustainable_finance_data` (`temp.py` lines
591-612): skip on missing or empty content, otherwise count whole-word
matches of the sustainable-finance keywords in the lowered content and
flag a focus when the total is strictly greater than 3. -/
def add_sustainable_finance_data_one (a : Article) : Article :=
  match a.full_content with
  | none => a
  | some fc =>
    if fc = "" then a
    else
      let content := pyLower fc
      let mentions := themeCount sustainable_finance_kw content
      { a with sustainable_finance_mentions := some mentions
               sustainable_finance_keywords := some
                 (sustainable_finance_kw.filter (fun kw => countWord kw content != 0))
               sustainable_finance_focus := some (decide (mentions > 3)) }

/-- List form of `add_sustainable_finance_data`. -/
def add_sustainable_finance_data (articles : List Article) : List Article :=
  articles.map add_sustainable_finance_data_one

/-- Positive word list of `detect_sentiment` (`temp.py` lines
708-713). -/
def positive_words : List String :=
  [ "positive", "success", "innovation", "leadership", "achieve",
    "improve", "progress", "sustainable", "responsible", "ethical",
    "benefit", "advance", "growth", "excellence", "quality",
    "commitment", "partnership", "transparency", "trust", "award" ]

/-- Negative word list of `detect_sentiment` (`temp.py` lines
715-720). -/
def negative_words : List String :=
  [ "negative", "fail", "risk", "concern", "issue", "problem",
    "controversy", "violation", "penalty", "fine", "litigation",
    "criticism", "damage", "greenwashing", "investigation", "scandal",
    "warning", "insufficient", "dangerous", "harmful", "misleading" ]

/-- Word-count accumulation of `detect_sentiment`:
`sum(content.count(" " + word + " ") for word in words)`. -/
def sentCount (words : List String) (content : String) : Nat :=
  words.foldl (fun acc w => acc + countSubstr (" " ++ w ++ " ") content) 0

/-- Raw sentiment score `(pos - neg) / (pos + neg)`, or 0 when both
counts are 0 (`temp.py` lines 733-737).  The Python float quotient is
modelled by the exact rational. -/
def scoreOf (pos neg : Nat) : ℚ :=
  if pos + neg > 0 then ((pos : ℚ) - (neg : ℚ)) / ((pos : ℚ) + (neg : ℚ)) else 0

/-- Model of Python `round(x, 2)` on the exact rational: round-half-up
to centiunits.  Python rounds the IEEE double half-to-even; no claim
exercises an exact tie, where the two differ. -/
def round2 (q : ℚ) : ℚ :=
  ((round (q * 100) : ℤ) : ℚ) / 100

/-- Bucketing of `temp.py` line 741, applied to the unrounded score:
strictly above 0.1 is positive, strictly below -0.1 negative, else
neutral. -/
def sentimentBucket (score : ℚ) : String :=
  if score > 1 / 10 then "positive"
  else if score < -(1 / 10) then "negative"
  else "neutral"

/-- Per-article body of `detect_sentiment` (`temp.py` lines 722-743):
skip on missing or empty content, otherwise count space-padded
occurrences of the word lists in the lowered content, store the score
rounded to 2 decimals and bucket the unrounded score. -/
def detect_sentiment_one (a : Article) : Article :=
  match a.full_content with
  | none => a
  | some fc =>
    if fc = "" then a
    else
      let content := pyLower fc
      let pos := sentCount positive_words content
      let neg := sentCount negative_words content
      let score := scoreOf pos neg
      { a with sentiment_score := some (round2 score)
               sentiment := some (sentimentBucket score)
               positive_words := some pos
               negative_words := some neg }

/-- List form of `detect_sentiment`. -/
def detect_sentiment (articles : List Article) : List Article :=
  articles.map detect_sentiment_one

/-- Per-article body of `extract_quotes` (`temp.py` lines 749-804).
The `re.findall` results of the two attribution patterns over the raw
content are environment parameters `m1` and `m2` (no claim constrains
them); the skip condition and the filter keeping quotes whose speaker
or text contains a company-name variant are translated from the
source. -/
def extract_quotes_one (m1 m2 : String → List (String × String)) (a : Article) : Article :=
  match a.full_content with
  | none => a
  | some fc =>
    if fc = "" then a
    else
      let qs : List Quote :=
        (m1 fc).map (fun p => { text := p.1, speaker := p.2, pattern := "attribution" }) ++
        (m2 fc).map (fun p => { text := p.2, speaker := p.1, pattern := "preceding_attribution" })
      let variations := (normalize_company_name a.company).2
      let company_quotes := qs.filter (fun q =>
        variations.any (fun v => substrB v (pyLower q.speaker)) ||
        variations.any (fun v => substrB v (pyLower q.text)))
      { a with quotes := some company_quotes
               quote_count := some company_quotes.length }

/-- The four analysis passes in the order `run_complete_analysis` runs
them: themes, sustainable finance, sentiment, quotes. -/
def analysis_passes (m1 m2 : String → List (String × String)) (a : Article) : Article :=
  extract_quotes_one m1 m2
    (detect_sentiment_one (add_sustainable_finance_data_one (analyze_esg_themes_one a)))

/-- Counter update `d[k] = d.get(k, 0) + 1` on an association list. -/
def bump (d : List (String × Nat)) (k : String) : List (String × Nat) :=
  if d.any (fun p => p.1 == k) then
    d.map (fun p => if p.1 = k then (p.1, p.2 + 1) else p)
  else
    d ++ [(k, 1)]

/-- Aggregation loop of `generate_report` (`temp.py` lines 830-846):
theme-mention totals as an (environmental, social, governance) triple,
and primary-focus and sentiment counters seeded with their fixed keys;
articles missing a field contribute nothing for it. -/
def generate_report_aggregates (articles : List Article) :
    (Nat × Nat × Nat) × List (String × Nat) × List (String × Nat) :=
  articles.foldl
    (fun acc a =>
      let tt := match a.esg_theme_counts with
        | some (e, s, g) => (acc.1.1 + e, acc.1.2.1 + s, acc.1.2.2 + g)
        | none => acc.1
      let fc := match a.primary_esg_focus with
        | some f => bump acc.2.1 f
        | none => acc.2.1
      let sc := match a.sentiment with
        | some st => bump acc.2.2 st
        | none => acc.2.2
      (tt, fc, sc))
    ((0, 0, 0),
     [("environmental", 0), ("social", 0), ("governance", 0), ("undetermined", 0)],
     [("positive", 0), ("neutral", 0), ("negative", 0)])

/-- Occurrence count of `w` among the whitespace-delimited tokens of the
lowered content.  Modelled from the claim wording for C6 ("the number
of occurrences of that word as a whitespace-delimited token of the
lowercased content"), to be compared with what `detect_sentiment`
computes. -/
def splitWsAux : List Char → List Char → List (List Char)
  | cur, [] => [cur.reverse]
  | cur, c :: rest =>
    if c.isWhitespace then cur.reverse :: splitWsAux [] rest else splitWsAux (c :: cur) rest

/-- Token-occurrence count for one word (claim-side definition for
C6). -/
def tokenOccurrences (w content : String) : Nat :=
  ((splitWsAux [] (pyLower content).data).filter (fun t => t = w.data)).length

/-- Token-occurrence total over a word list (claim-side definition for
C6). -/
def claimTokenCount (words : List String) (content : String) : Nat :=
  words.foldl (fun acc w => acc + tokenOccurrences w content) 0

/-- Argmax theme with first-wins tie-breaking in the order
environmental, social, governance.  Modelled from the claim wording for
C4, to be compared with the `max`-based source computation. -/
def claimArgmax (e s g : Nat) : String :=
  if s ≤ e ∧ g ≤ e then "environmental"
  else if g ≤ s then "social"
  else "governance"

/-- Test fixture for counterexamples and witnesses: a direct-search
article carrying the given link and full content. -/
def mkArticle (link content : String) : Article :=
  { title := "t", date := "Date not found", link := link, excerpt := "e",
    source := "ESG Today", search_method := "direct_search", company := "acme",
    full_content := some content }

/-- Test fixture: a discovered article whose content was never
fetched. -/
def mkPending (link : String) : Article :=
  { title := "t", date := "Date not found", link := link, excerpt := "e",
    source := "ESG Today", search_method := "direct_search", company := "acme" }

/-- Round-trip of `Char.ofNat` on valid code points. -/
theorem char_toNat_ofNat (n : Nat) (h : n.isValidChar) : (Char.ofNat n).toNat = n := by
  simp [Char.ofNat, h, Char.ofNatAux, Char.toNat, UInt32.toNat, BitVec.toNat_ofNatLt]

/-- ASCII lowering of a character is idempotent. -/
theorem charLower_idem (c : Char) : (Char.toLower c).toLower = c.toLower := by
  simp only [Char.toLower]
  by_cases h : c.toNat ≥ 65 ∧ c.toNat ≤ 90
  · have hval : (c.toNat + 32).isValidChar := Or.inl (by omega)
    have htn := char_toNat_ofNat (c.toNat + 32) hval
    rw [if_pos h, htn, if_neg (by omega)]
  · rw [if_neg h, if_neg h]

/-- Lowering a string is idempotent. -/
theorem pyLower_idem (s : String) : pyLower (pyLower s) = pyLower s := by
  show (⟨(s.data.map Char.toLower).map Char.toLower⟩ : String) = ⟨s.data.map Char.toLower⟩
  simp [List.map_map, Function.comp_def, charLower_idem]

/-- C8: for every input company-name string, `normalize_company_name`
returns (it is a total function, hence never raises) a canonical name
together with a non-empty variant list that contains the lowercased
input; on a table hit it returns the matched entry with its full
variant set, and on a miss the lowercased input as canonical with the
variant list consisting of the lowercased input and the lowercased
input with spaces removed. -/
theorem normalize_company_name_spec (s : String) :
    (normalize_company_name s).2 ≠ [] ∧
    pyLower s ∈ (normalize_company_name s).2 ∧
    (company_variations.find? (fun e => e.2.contains (pyLower s))).elim
      (normalize_company_name s = (pyLower s, [pyLower s, removeSpaces (pyLower s)]))
      (fun e => normalize_company_name s = e) := by
  cases h : company_variations.find? (fun e => e.2.contains (pyLower s)) with
  | none =>
    simp only [normalize_company_name, h, Option.elim]
    exact ⟨by simp, by simp, trivial⟩
  | some e =>
    have hmem : pyLower s ∈ e.2 := by simpa using List.find?_some h
    simp only [normalize_company_name, h, Option.elim]
    exact ⟨List.ne_nil_of_mem hmem, hmem, trivial⟩

/-- Normalizing any canonical key of the static table yields exactly
that table entry (each key is lowercase, belongs to its own variant
list, and no earlier variant list captures it). -/
theorem normalize_table_keys :
    ∀ e ∈ company_variations, normalize_company_name e.1 = e := by decide

/-- C10: `normalize_company_name` is idempotent, in that normalizing
the canonical name it returns yields the same canonical name and the
same variant list. -/
theorem normalize_company_name_idem (s : String) :
    normalize_company_name (normalize_company_name s).1 = normalize_company_name s := by
  cases h : company_variations.find? (fun e => e.2.contains (pyLower s)) with
  | some e =>
    have he : normalize_company_name s = e := by
      simp only [normalize_company_name, h]
    rw [he]
    exact normalize_table_keys e (List.mem_of_find?_eq_some h)
  | none =>
    have he : normalize_company_name s = (pyLower s, [pyLower s, removeSpaces (pyLower s)]) := by
      simp only [normalize_company_name, h]
    rw [he]
    simp only [normalize_company_name, pyLower_idem, h]

/-- Behavior of the `safe_get` retry loop from any start attempt:
bounded attempt count, exactly one sleep between consecutive attempts,
true reported at the first succeeding attempt, false only after every
attempt in range failed, and one of the two always returned. -/
theorem safe_get_loop_spec (outcome : Nat → Bool) :
    ∀ remaining, 1 ≤ remaining → ∀ attempt,
    (safe_get_loop outcome attempt remaining).2.1 ≤ remaining ∧
    (safe_get_loop outcome attempt remaining).2.2 + 1 = (safe_get_loop outcome attempt remaining).2.1 ∧
    ((safe_get_loop outcome attempt remaining).1 = some true →
      outcome (attempt + (safe_get_loop outcome attempt remaining).2.1 - 1) = true ∧
      ∀ j, attempt ≤ j → j < attempt + (safe_get_loop outcome attempt remaining).2.1 - 1 →
        outcome j = false) ∧
    ((safe_get_loop outcome attempt remaining).1 = some false →
      (safe_get_loop outcome attempt remaining).2.1 = remaining ∧
      ∀ j, attempt ≤ j → j < attempt + remaining → outcome j = false) ∧
    ((safe_get_loop outcome attempt remaining).1 = some true ∨
     (safe_get_loop outcome attempt remaining).1 = some false) := by
  intro remaining
  induction remaining with
  | zero => omega
  | succ n ih =>
    intro _ attempt
    by_cases ho : outcome attempt = true
    · have hv : safe_get_loop outcome attempt (n + 1) = (some true, 1, 0) := by
        rw [safe_get_loop, if_pos ho]
      rw [hv]
      dsimp only
      refine ⟨by omega, rfl, ?_, ?_, Or.inl rfl⟩
      · intro _
        refine ⟨by simpa using ho, ?_⟩
        intro j hj1 hj2
        omega
      · intro hc
        simp at hc
    · have ho2 : outcome attempt = false := by simpa using ho
      cases n with
      | zero =>
        have hv : safe_get_loop outcome attempt 1 = (some false, 1, 0) := by
          rw [safe_get_loop, if_neg ho, if_pos rfl]
        rw [hv]
        dsimp only
        refine ⟨by omega, rfl, ?_, ?_, Or.inr rfl⟩
        · intro hc
          simp at hc
        · intro _
          refine ⟨rfl, ?_⟩
          intro j hj1 hj2
          have hj : j = attempt := by omega
          rw [hj]
          exact ho2
      | succ m =>
        have hstep : safe_get_loop outcome attempt (m + 1 + 1) =
            ((safe_get_loop outcome (attempt + 1) (m + 1)).1,
             (safe_get_loop outcome (attempt + 1) (m + 1)).2.1 + 1,
             (safe_get_loop outcome (attempt + 1) (m + 1)).2.2 + 1) := by
          rw [safe_get_loop, if_neg ho, if_neg (by omega)]
        obtain ⟨ih1, ih2, ih3, ih4, ih5⟩ := ih (by omega) (attempt + 1)
        rw [hstep]
        dsimp only
        refine ⟨by omega, by omega, ?_, ?_, ?_⟩
        · intro ht
          obtain ⟨hx, hall⟩ := ih3 ht
          constructor
          · have harith : attempt + ((safe_get_loop outcome (attempt + 1) (m + 1)).2.1 + 1) - 1 =
                attempt + 1 + (safe_get_loop outcome (attempt + 1) (m + 1)).2.1 - 1 := by omega
            rw [harith]
            exact hx
          · intro j hj1 hj2
            rcases Nat.eq_or_lt_of_le hj1 with hj | hj
            · rw [← hj]
              exact ho2
            · exact hall j (by omega) (by omega)
        · intro hf
          obtain ⟨hlen, hall⟩ := ih4 hf
          refine ⟨by omega, ?_⟩
          intro j hj1 hj2
          rcases Nat.eq_or_lt_of_le hj1 with hj | hj
          · rw [← hj]
            exact ho2
          · exact hall j (by omega) (by omega)
        · exact ih5

/-- C9: for every navigation-outcome environment and every
`retries ≥ 1`, `safe_get` performs at most `retries` navigation
attempts with exactly one fixed delay between consecutive attempts (so
`sleeps + 1 = attempts`), returns true at the first attempt that
succeeds (every earlier attempt having failed), and when every attempt
fails it performs all `retries` attempts and returns false — a result,
not an exception. -/
theorem safe_get_spec (outcome : Nat → Bool) (retries : Nat) (h : 1 ≤ retries) :
    (safe_get outcome retries).2.1 ≤ retries ∧
    (safe_get outcome retries).2.2 + 1 = (safe_get outcome retries).2.1 ∧
    ((safe_get outcome retries).1 = some true →
      outcome ((safe_get outcome retries).2.1 - 1) = true ∧
      ∀ j, j < (safe_get outcome retries).2.1 - 1 → outcome j = false) ∧
    ((safe_get outcome retries).1 = some false →
      (safe_get outcome retries).2.1 = retries ∧ ∀ j, j < retries → outcome j = false) ∧
    (safe_get outcome retries).1 ≠ none ∧
    ((∃ j, j < retries ∧ outcome j = true) → (safe_get outcome retries).1 = some true) := by
  obtain ⟨h1, h2, h3, h4, h5⟩ := safe_get_loop_spec outcome retries h 0
  simp only [safe_get, Nat.zero_add] at *
  refine ⟨h1, h2, ?_, ?_, ?_, ?_⟩
  · intro ht
    obtain ⟨hx, hall⟩ := h3 ht
    exact ⟨hx, fun j hj => hall j (by omega) hj⟩
  · intro hf
    obtain ⟨hlen, hall⟩ := h4 hf
    exact ⟨hlen, fun j hj => hall j (by omega) hj⟩
  · rcases h5 with h5 | h5 <;> simp [h5]
  · rintro ⟨j, hj, hoj⟩
    rcases h5 with h5 | h5
    · exact h5
    · obtain ⟨_, hall⟩ := h4 h5
      rw [hall j (by omega) (by omega)] at hoj
      exact absurd hoj (by simp)

/-- Witness for C9: retries 3 with exactly the second attempt
succeeding. -/
theorem safe_get_spec_witness :
    1 ≤ 3 ∧
    ((safe_get (fun i => decide (i = 1)) 3).2.1 ≤ 3 ∧
     (safe_get (fun i => decide (i = 1)) 3).2.2 + 1 = (safe_get (fun i => decide (i = 1)) 3).2.1 ∧
     ((safe_get (fun i => decide (i = 1)) 3).1 = some true →
       (fun i => decide (i = 1)) ((safe_get (fun i => decide (i = 1)) 3).2.1 - 1) = true ∧
       ∀ j, j < (safe_get (fun i => decide (i = 1)) 3).2.1 - 1 → (fun i => decide (i = 1)) j = false) ∧
     ((safe_get (fun i => decide (i = 1)) 3).1 = some false →
       (safe_get (fun i => decide (i = 1)) 3).2.1 = 3 ∧
       ∀ j, j < 3 → (fun i => decide (i = 1)) j = false) ∧
     (safe_get (fun i => decide (i = 1)) 3).1 ≠ none ∧
     ((∃ j, j < 3 ∧ (fun i => decide (i = 1)) j = true) →
       (safe_get (fun i => decide (i = 1)) 3).1 = some true)) :=
  ⟨by decide, safe_get_spec (fun i => decide (i = 1)) 3 (by decide)⟩

/-- The count chosen by the source `max` is zero exactly when all three
theme counts are zero. -/
theorem esgFocus_snd_zero (e s g : Nat) :
    (esgFocus e s g).2 = 0 ↔ e = 0 ∧ s = 0 ∧ g = 0 := by
  simp only [esgFocus]
  split_ifs <;> dsimp only <;> omega

/-- The theme chosen by the source `max` agrees with the claim-side
argmax with first-wins tie-breaking. -/
theorem esgFocus_fst (e s g : Nat) :
    (esgFocus e s g).1 = claimArgmax e s g := by
  simp only [esgFocus, claimArgmax]
  split_ifs <;> first | rfl | omega

/-- The claim-side argmax never returns the undetermined marker. -/
theorem claimArgmax_ne_undetermined (e s g : Nat) :
    claimArgmax e s g ≠ "undetermined" := by
  simp only [claimArgmax]
  split_ifs <;> decide

/-- The focus expression of `analyze_esg_themes` as a function of the
three counts: undetermined on all-zero counts, otherwise the claim-side
argmax. -/
theorem focus_if_spec (e s g : Nat) :
    (if (esgFocus e s g).2 > 0 then (esgFocus e s g).1 else "undetermined") =
      if e = 0 ∧ s = 0 ∧ g = 0 then "undetermined" else claimArgmax e s g := by
  by_cases hz : e = 0 ∧ s = 0 ∧ g = 0
  · have h0 : (esgFocus e s g).2 = 0 := (esgFocus_snd_zero e s g).mpr hz
    rw [if_pos hz, if_neg (by omega)]
  · have h0 : (esgFocus e s g).2 ≠ 0 := fun hc => hz ((esgFocus_snd_zero e s g).mp hc)
    rw [if_neg hz, if_pos (by omega), esgFocus_fst]

/-- C4: for every article with non-empty `full_content`,
`analyze_esg_themes` records the three theme counts and sets
`primary_esg_focus` to "undetermined" exactly when all three counts are
zero, and otherwise to the theme with the maximum count with ties
resolved to the first theme in the order environmental, social,
governance; in particular counts (2, 2, 0) give "environmental". -/
theorem analyze_esg_themes_primary_focus (a : Article) (fc : String)
    (h1 : a.full_content = some fc) (h2 : fc ≠ "") :
    ∃ e s g,
      (analyze_esg_themes_one a).esg_theme_counts = some (e, s, g) ∧
      ((analyze_esg_themes_one a).primary_esg_focus = some "undetermined" ↔
        e = 0 ∧ s = 0 ∧ g = 0) ∧
      (analyze_esg_themes_one a).primary_esg_focus =
        some (if e = 0 ∧ s = 0 ∧ g = 0 then "undetermined" else claimArgmax e s g) ∧
      claimArgmax 2 2 0 = "environmental" := by
  have hcounts : (analyze_esg_themes_one a).esg_theme_counts =
      some (themeCount esg_environmental (pyLower fc), themeCount esg_social (pyLower fc),
            themeCount esg_governance (pyLower fc)) := by
    simp only [analyze_esg_themes_one, h1]
    rw [if_neg h2]
  have hfocus : (analyze_esg_themes_one a).primary_esg_focus =
      some (if (esgFocus (themeCount esg_environmental (pyLower fc))
                  (themeCount esg_social (pyLower fc))
                  (themeCount esg_governance (pyLower fc))).2 > 0
            then (esgFocus (themeCount esg_environmental (pyLower fc))
                    (themeCount esg_social (pyLower fc))
                    (themeCount esg_governance (pyLower fc))).1
            else "undetermined") := by
    simp only [analyze_esg_themes_one, h1]
    rw [if_neg h2]
  refine ⟨_, _, _, hcounts, ?_, ?_, by decide⟩
  · rw [hfocus, focus_if_spec]
    constructor
    · intro hcase
      by_contra hz
      rw [if_neg hz] at hcase
      exact claimArgmax_ne_undetermined _ _ _ (by simpa using hcase)
    · intro hz
      rw [if_pos hz]
  · rw [hfocus, focus_if_spec]

/-- Witness for C4: content with environmental count 2, social count 2,
governance count 0, realizing the tie example of the claim. -/
theorem analyze_esg_themes_primary_focus_witness :
    ((mkArticle "w4" "climate carbon diversity inclusion").full_content =
        some "climate carbon diversity inclusion" ∧
      "climate carbon diversity inclusion" ≠ "") ∧
    (∃ e s g,
      (analyze_esg_themes_one (mkArticle "w4" "climate carbon diversity inclusion")).esg_theme_counts =
        some (e, s, g) ∧
      ((analyze_esg_themes_one (mkArticle "w4" "climate carbon diversity inclusion")).primary_esg_focus =
          some "undetermined" ↔ e = 0 ∧ s = 0 ∧ g = 0) ∧
      (analyze_esg_themes_one (mkArticle "w4" "climate carbon diversity inclusion")).primary_esg_focus =
        some (if e = 0 ∧ s = 0 ∧ g = 0 then "undetermined" else claimArgmax e s g) ∧
      claimArgmax 2 2 0 = "environmental") ∧
    (analyze_esg_themes_one (mkArticle "w4" "climate carbon diversity inclusion")).esg_theme_counts =
      some (2, 2, 0) ∧
    (analyze_esg_themes_one (mkArticle "w4" "climate carbon diversity inclusion")).primary_esg_focus =
      some "environmental" :=
  ⟨⟨rfl, by decide⟩,
   analyze_esg_themes_primary_focus (mkArticle "w4" "climate carbon diversity inclusion")
     "climate carbon diversity inclusion" rfl (by decide),
   by decide, by decide⟩

/-- C7: for every article with non-empty `full_content`,
`add_sustainable_finance_data` sets the mention count to the total
whole-word match count of the sustainable-finance keyword list in the
lowered content, and flags the focus exactly when that count is
strictly greater than 3. -/
theorem add_sustainable_finance_data_spec (a : Article) (fc : String)
    (h1 : a.full_content = some fc) (h2 : fc ≠ "") :
    (add_sustainable_finance_data_one a).sustainable_finance_mentions =
      some (themeCount sustainable_finance_kw (pyLower fc)) ∧
    ∀ m, (add_sustainable_finance_data_one a).sustainable_finance_mentions = some m →
      ((add_sustainable_finance_data_one a).sustainable_finance_focus = some true ↔ 3 < m) := by
  have hm : (add_sustainable_finance_data_one a).sustainable_finance_mentions =
      some (themeCount sustainable_finance_kw (pyLower fc)) := by
    simp only [add_sustainable_finance_data_one, h1]
    rw [if_neg h2]
  have hf : (add_sustainable_finance_data_one a).sustainable_finance_focus =
      some (decide (themeCount sustainable_finance_kw (pyLower fc) > 3)) := by
    simp only [add_sustainable_finance_data_one, h1]
    rw [if_neg h2]
  refine ⟨hm, ?_⟩
  intro m hmm
  rw [hm] at hmm
  have hm2 : themeCount sustainable_finance_kw (pyLower fc) = m := by
    exact Option.some.inj hmm
  rw [hf, hm2]
  simp only [Option.some.injEq, decide_eq_true_eq]

/-- Witness for C7: the claim scenario with exactly 4 occurrences of
"sustainable bond", giving 4 mentions and a true focus flag; also the
3-versus-4 threshold contrast. -/
theorem add_sustainable_finance_data_spec_witness :
    ("sustainable bond sustainable bond sustainable bond sustainable bond" ≠ "" ∧
      (mkArticle "w7" "sustainable bond sustainable bond sustainable bond sustainable bond").full_content =
        some "sustainable bond sustainable bond sustainable bond sustainable bond") ∧
    (add_sustainable_finance_data_one
        (mkArticle "w7" "sustainable bond sustainable bond sustainable bond sustainable bond")).sustainable_finance_mentions =
      some 4 ∧
    (add_sustainable_finance_data_one
        (mkArticle "w7" "sustainable bond sustainable bond sustainable bond sustainable bond")).sustainable_finance_focus =
      some true ∧
    (add_sustainable_finance_data_one
        (mkArticle "w3" "sustainable bond sustainable bond sustainable bond")).sustainable_finance_mentions =
      some 3 ∧
    (add_sustainable_finance_data_one
        (mkArticle "w3" "sustainable bond sustainable bond sustainable bond")).sustainable_finance_focus =
      some false := by
  have h := add_sustainable_finance_data_spec
    (mkArticle "w7" "sustainable bond sustainable bond sustainable bond sustainable bond")
    "sustainable bond sustainable bond sustainable bond sustainable bond" rfl (by decide)
  have h4 : (add_sustainable_finance_data_one
      (mkArticle "w7" "sustainable bond sustainable bond sustainable bond sustainable bond")).sustainable_finance_mentions =
      some 4 := by
    rw [h.1]
    decide
  refine ⟨⟨by decide, rfl⟩, h4, (h.2 4 h4).mpr (by decide), by decide, by decide⟩

/-- The raw sentiment score always lies in [-1, 1]. -/
theorem scoreOf_bounds (pos neg : Nat) :
    -1 ≤ scoreOf pos neg ∧ scoreOf pos neg ≤ 1 := by
  unfold scoreOf
  split_ifs with h
  · have hp : (0 : ℚ) ≤ (pos : ℚ) := Nat.cast_nonneg pos
    have hn : (0 : ℚ) ≤ (neg : ℚ) := Nat.cast_nonneg neg
    have hd : (0 : ℚ) < (pos : ℚ) + (neg : ℚ) := by
      have hcast : (0 : ℚ) < ((pos + neg : ℕ) : ℚ) := by exact_mod_cast h
      push_cast at hcast
      linarith
    constructor
    · rw [le_div_iff₀ hd]
      linarith
    · rw [div_le_one hd]
      linarith
  · norm_num

/-- Rounding a score in [-1, 1] to two decimals keeps it in [-1, 1]. -/
theorem round2_bounds (q : ℚ) (hl : -1 ≤ q) (hu : q ≤ 1) :
    -1 ≤ round2 q ∧ round2 q ≤ 1 := by
  unfold round2
  have hup : round (q * 100) ≤ 100 := by
    rw [round_eq]
    calc ⌊q * 100 + 1 / 2⌋ ≤ ⌊(100 : ℚ) + 1 / 2⌋ := Int.floor_le_floor (by linarith)
      _ = 100 := by
        rw [Int.floor_eq_iff]
        norm_num
  have hdn : (-100 : ℤ) ≤ round (q * 100) := by
    rw [round_eq]
    have hfl : ⌊(-100 : ℚ) + 1 / 2⌋ = -100 := by
      rw [Int.floor_eq_iff]
      norm_num
    calc (-100 : ℤ) = ⌊(-100 : ℚ) + 1 / 2⌋ := hfl.symm
      _ ≤ ⌊q * 100 + 1 / 2⌋ := Int.floor_le_floor (by linarith)
  constructor
  · rw [le_div_iff₀ (by norm_num : (0 : ℚ) < 100)]
    have : ((-100 : ℤ) : ℚ) ≤ ((round (q * 100) : ℤ) : ℚ) := by exact_mod_cast hdn
    push_cast at this ⊢
    linarith
  · rw [div_le_one (by norm_num : (0 : ℚ) < 100)]
    exact_mod_cast hup

/-- Bucketing returns "positive" exactly for scores strictly above
1/10. -/
theorem sentimentBucket_positive (x : ℚ) :
    sentimentBucket x = "positive" ↔ 1 / 10 < x := by
  unfold sentimentBucket
  split_ifs with hp hn
  · exact ⟨fun _ => hp, fun _ => rfl⟩
  · exact ⟨fun hc => absurd hc (by decide), fun hx => absurd hx hp⟩
  · exact ⟨fun hc => absurd hc (by decide), fun hx => absurd hx hp⟩

/-- Bucketing returns "negative" exactly for scores strictly below
-1/10. -/
theorem sentimentBucket_negative (x : ℚ) :
    sentimentBucket x = "negative" ↔ x < -(1 / 10) := by
  unfold sentimentBucket
  split_ifs with hp hn
  · exact ⟨fun hc => absurd hc (by decide), fun hx => absurd hx (by linarith)⟩
  · exact ⟨fun _ => hn, fun _ => rfl⟩
  · exact ⟨fun hc => absurd hc (by decide), fun hx => absurd hx hn⟩

/-- Bucketing returns "neutral" exactly for scores in [-1/10, 1/10]. -/
theorem sentimentBucket_neutral (x : ℚ) :
    sentimentBucket x = "neutral" ↔ -(1 / 10) ≤ x ∧ x ≤ 1 / 10 := by
  unfold sentimentBucket
  split_ifs with hp hn
  · exact ⟨fun hc => absurd hc (by decide), fun hx => absurd hp (by push_neg; exact hx.2)⟩
  · exact ⟨fun hc => absurd hc (by decide), fun hx => absurd hn (by push_neg; exact hx.1)⟩
  · push_neg at hp hn
    exact ⟨fun _ => ⟨hn, hp⟩, fun _ => rfl⟩

/-- C5: for every article with non-empty `full_content`,
`detect_sentiment` stores the positive and negative counts, stores as
`sentiment_score` the raw quotient (pos - neg) / (pos + neg) rounded to
2 decimals when pos + neg > 0 (a value in [-1, 1]) and exactly 0 when
pos + neg = 0, and buckets the raw score with strict thresholds at
1/10: above gives "positive", below -1/10 gives "negative", otherwise
"neutral" — so a raw score of exactly 1/10 is neutral and 1000001/10000000
is positive. -/
theorem detect_sentiment_spec (a : Article) (fc : String)
    (h1 : a.full_content = some fc) (h2 : fc ≠ "") :
    ∃ pos neg,
      (detect_sentiment_one a).positive_words = some pos ∧
      (detect_sentiment_one a).negative_words = some neg ∧
      (detect_sentiment_one a).sentiment_score = some (round2 (scoreOf pos neg)) ∧
      (pos + neg = 0 → (detect_sentiment_one a).sentiment_score = some 0) ∧
      (0 < pos + neg →
        scoreOf pos neg = ((pos : ℚ) - (neg : ℚ)) / ((pos : ℚ) + (neg : ℚ)) ∧
        -1 ≤ round2 (scoreOf pos neg) ∧ round2 (scoreOf pos neg) ≤ 1) ∧
      ((detect_sentiment_one a).sentiment = some "positive" ↔ 1 / 10 < scoreOf pos neg) ∧
      ((detect_sentiment_one a).sentiment = some "negative" ↔ scoreOf pos neg < -(1 / 10)) ∧
      ((detect_sentiment_one a).sentiment = some "neutral" ↔
        -(1 / 10) ≤ scoreOf pos neg ∧ scoreOf pos neg ≤ 1 / 10) ∧
      sentimentBucket (1 / 10) = "neutral" ∧
      sentimentBucket (1000001 / 10000000) = "positive" := by
  have hpos : (detect_sentiment_one a).positive_words =
      some (sentCount positive_words (pyLower fc)) := by
    simp only [detect_sentiment_one, h1]
    rw [if_neg h2]
  have hneg : (detect_sentiment_one a).negative_words =
      some (sentCount negative_words (pyLower fc)) := by
    simp only [detect_sentiment_one, h1]
    rw [if_neg h2]
  have hscore : (detect_sentiment_one a).sentiment_score =
      some (round2 (scoreOf (sentCount positive_words (pyLower fc))
                            (sentCount negative_words (pyLower fc)))) := by
    simp only [detect_sentiment_one, h1]
    rw [if_neg h2]
  have hsent : (detect_sentiment_one a).sentiment =
      some (sentimentBucket (scoreOf (sentCount positive_words (pyLower fc))
                                     (sentCount negative_words (pyLower fc)))) := by
    simp only [detect_sentiment_one, h1]
    rw [if_neg h2]
  refine ⟨_, _, hpos, hneg, hscore, ?_, ?_, ?_, ?_, ?_, ?_, ?_⟩
  · intro hz
    rw [hscore]
    have hs0 : scoreOf (sentCount positive_words (pyLower fc))
        (sentCount negative_words (pyLower fc)) = 0 := by
      unfold scoreOf
      rw [if_neg (by omega)]
    rw [hs0]
    norm_num [round2]
  · intro hpn
    refine ⟨?_, ?_⟩
    · unfold scoreOf
      rw [if_pos hpn]
    · obtain ⟨hl, hu⟩ := scoreOf_bounds (sentCount positive_words (pyLower fc))
        (sentCount negative_words (pyLower fc))
      exact round2_bounds _ hl hu
  · rw [hsent]
    simp only [Option.some.injEq]
    exact sentimentBucket_positive _
  · rw [hsent]
    simp only [Option.some.injEq]
    exact sentimentBucket_negative _
  · rw [hsent]
    simp only [Option.some.injEq]
    exact sentimentBucket_neutral _
  · rw [sentimentBucket_neutral]
    norm_num
  · rw [sentimentBucket_positive]
    norm_num

/-- Witness for C5: content with two positive-word tokens and no
negative-word tokens, giving score 1 and bucket "positive". -/
theorem detect_sentiment_spec_witness :
    ((mkArticle "w5" "a success b success c").full_content = some "a success b success c" ∧
      "a success b success c" ≠ "") ∧
    (∃ pos neg,
      (detect_sentiment_one (mkArticle "w5" "a success b success c")).positive_words = some pos ∧
      (detect_sentiment_one (mkArticle "w5" "a success b success c")).negative_words = some neg ∧
      (detect_sentiment_one (mkArticle "w5" "a success b success c")).sentiment_score =
        some (round2 (scoreOf pos neg)) ∧
      (pos + neg = 0 →
        (detect_sentiment_one (mkArticle "w5" "a success b success c")).sentiment_score = some 0) ∧
      (0 < pos + neg →
        scoreOf pos neg = ((pos : ℚ) - (neg : ℚ)) / ((pos : ℚ) + (neg : ℚ)) ∧
        -1 ≤ round2 (scoreOf pos neg) ∧ round2 (scoreOf pos neg) ≤ 1) ∧
      ((detect_sentiment_one (mkArticle "w5" "a success b success c")).sentiment = some "positive" ↔
        1 / 10 < scoreOf pos neg) ∧
      ((detect_sentiment_one (mkArticle "w5" "a success b success c")).sentiment = some "negative" ↔
        scoreOf pos neg < -(1 / 10)) ∧
      ((detect_sentiment_one (mkArticle "w5" "a success b success c")).sentiment = some "neutral" ↔
        -(1 / 10) ≤ scoreOf pos neg ∧ scoreOf pos neg ≤ 1 / 10) ∧
      sentimentBucket (1 / 10) = "neutral" ∧
      sentimentBucket (1000001 / 10000000) = "positive") ∧
    (detect_sentiment_one (mkArticle "w5" "a success b success c")).positive_words = some 2 ∧
    (detect_sentiment_one (mkArticle "w5" "a success b success c")).negative_words = some 0 :=
  ⟨⟨rfl, by decide⟩,
   detect_sentiment_spec (mkArticle "w5" "a success b success c") "a success b success c"
     rfl (by decide),
   by decide, by decide⟩

/-- Test fixture: an alternate-source article carrying the given
link. -/
def altArticle (link : String) : Article :=
  { title := "t2", date := "Date not found", link := link, excerpt := "e2",
    source := "Responsible Investor", search_method := "alternative_source", company := "acme" }

/-- Counterexample for C1: the alternate-site fallback of
`run_complete_analysis` extends the accumulated list with no link
check, so an alternate article sharing the link of a direct-search
article leaves two articles with the same link in the final list. -/
theorem run_discovery_duplicate_links :
    ¬ ((run_complete_analysis_discovery [mkPending "L"] [] [] [altArticle "L"]).map
        Article.link).Nodup := by decide

/-- The dedup-append fold keeps the accumulated links pairwise
distinct. -/
theorem dedupAppendAll_nodup :
    ∀ (found articles : List Article), (articles.map Article.link).Nodup →
      ((dedupAppendAll articles found).map Article.link).Nodup := by
  intro found
  induction found with
  | nil =>
    intro articles ha
    simpa [dedupAppendAll] using ha
  | cons b bs ih =>
    intro articles ha
    have hstep : dedupAppendAll articles (b :: bs) =
        dedupAppendAll (appendIfNewLink articles b) bs := rfl
    rw [hstep]
    apply ih
    unfold appendIfNewLink
    split
    · exact ha
    · rename_i hno
      rw [List.map_append]
      simp only [List.map_cons, List.map_nil]
      rw [List.nodup_append]
      refine ⟨ha, List.nodup_singleton _, ?_⟩
      intro x hx hxb
      rw [List.mem_singleton] at hxb
      obtain ⟨c, hc, hcl⟩ := List.mem_map.mp hx
      exact hno (List.any_eq_true.mpr ⟨c, hc, by rw [beq_iff_eq, hcl, hxb]⟩)

/-- C1 amended: the browse-filter and google-search stages append an
article only when no already-accumulated article has the same link, so
the whole strategy chain keeps the link values pairwise distinct
whenever the direct-search results have pairwise-distinct links; the
direct-search appends and the alternate-site extension perform no such
check (see the counterexample for the alternate stage). -/
theorem search_chain_link_nodup (direct browse google : List Article)
    (h : (direct.map Article.link).Nodup) :
    ((search_esg_today_for_company direct browse google).map Article.link).Nodup := by
  simp only [search_esg_today_for_company, List.nil_append]
  by_cases hc1 : direct.length < 3
  · rw [if_pos hc1]
    by_cases hc2 : (dedupAppendAll direct browse).length < 2
    · rw [if_pos hc2]
      exact dedupAppendAll_nodup google _ (dedupAppendAll_nodup browse _ h)
    · rw [if_neg hc2]
      exact dedupAppendAll_nodup browse _ h
  · rw [if_neg hc1]
    by_cases hc2 : direct.length < 2
    · rw [if_pos hc2]
      exact dedupAppendAll_nodup google _ h
    · rw [if_neg hc2]
      exact h

/-- Witness for the amended C1: one direct article plus one
browse-filter candidate with the same link, where the dedup check keeps
the links distinct. -/
theorem search_chain_link_nodup_witness :
    (([mkPending "L"].map Article.link).Nodup) ∧
    ((search_esg_today_for_company [mkPending "L"] [altArticle "L"] []).map Article.link).Nodup :=
  ⟨by decide, search_chain_link_nodup [mkPending "L"] [altArticle "L"] [] (by decide)⟩

/-- The quote pass writes only the two quote fields; every other field
passes through unchanged. -/
theorem extract_quotes_one_preserves (m1 m2 : String → List (String × String)) (x : Article) :
    (extract_quotes_one m1 m2 x).full_content = x.full_content ∧
    (extract_quotes_one m1 m2 x).mention_count = x.mention_count ∧
    (extract_quotes_one m1 m2 x).relevant_paragraphs = x.relevant_paragraphs ∧
    (extract_quotes_one m1 m2 x).esg_theme_counts = x.esg_theme_counts ∧
    (extract_quotes_one m1 m2 x).primary_esg_focus = x.primary_esg_focus ∧
    (extract_quotes_one m1 m2 x).sentiment_score = x.sentiment_score ∧
    (extract_quotes_one m1 m2 x).sentiment = x.sentiment ∧
    (extract_quotes_one m1 m2 x).sustainable_finance_mentions = x.sustainable_finance_mentions ∧
    (extract_quotes_one m1 m2 x).sustainable_finance_focus = x.sustainable_finance_focus := by
  cases hx : x.full_content with
  | none => simp [extract_quotes_one, hx]
  | some fcx =>
    by_cases hemp : fcx = ""
    · simp [extract_quotes_one, hx, hemp]
    · simp only [extract_quotes_one, hx]
      rw [if_neg hemp]
      exact ⟨rfl, rfl, rfl, rfl, rfl, rfl, rfl, rfl, rfl⟩

/-- Enrichment of an article whose page navigation failed: the fixed
sentinel carries no ESG, finance or sentiment keyword, so the first
three analysis passes compute all-zero signals on it. -/
theorem navfail_enriched (a : Article) :
    detect_sentiment_one (add_sustainable_finance_data_one (analyze_esg_themes_one
      (get_article_content_one .navFail a))) =
    { a with
      full_content := some "Content extraction failed - page could not be loaded",
      mention_count := some 0,
      relevant_paragraphs := some [],
      esg_theme_counts := some (0, 0, 0),
      esg_keywords := some ([], [], []),
      primary_esg_focus := some "undetermined",
      sustainable_finance_mentions := some 0,
      sustainable_finance_keywords := some [],
      sustainable_finance_focus := some false,
      sentiment_score := some (round2 (scoreOf 0 0)),
      sentiment := some (sentimentBucket (scoreOf 0 0)),
      positive_words := some 0,
      negative_words := some 0 } := rfl

/-- Counterexample for C2: when the per-article extraction raises, the
sentinel embeds the exception text, and the theme pass does not skip
it; an exception message containing the keyword "board" yields a
governance count of 1 and primary focus "governance", not
"undetermined". -/
theorem content_failure_focus_cex :
    (analyze_esg_themes_one (get_article_content_one (.raised "board")
        (mkPending "L2"))).full_content = some "Content extraction failed: board" ∧
    (analyze_esg_themes_one (get_article_content_one (.raised "board")
        (mkPending "L2"))).mention_count = some 0 ∧
    (analyze_esg_themes_one (get_article_content_one (.raised "board")
        (mkPending "L2"))).relevant_paragraphs = some [] ∧
    (analyze_esg_themes_one (get_article_content_one (.raised "board")
        (mkPending "L2"))).esg_theme_counts = some (0, 0, 1) ∧
    (analyze_esg_themes_one (get_article_content_one (.raised "board")
        (mkPending "L2"))).primary_esg_focus = some "governance" := by decide

/-- C2 amended: for every article whose content-page navigation fails,
`get_article_content` sets `full_content` to the fixed page-load
failure sentinel, `mention_count` to 0 and `relevant_paragraphs` to the
empty list, and the per-article loop continues independently to the
next article; that fixed sentinel contains no ESG keyword, so after the
downstream passes (all total functions) the article carries all-zero
theme counts, primary focus "undetermined" and neutral sentiment, and
report aggregation completes on it.  For an article whose extraction
raised, the sentinel embeds the exception text and the theme counts are
those of that text, so the all-zero conclusion is not guaranteed (see
the counterexample). -/
theorem navigation_failure_pipeline (a : Article) (m1 m2 : String → List (String × String)) :
    (analysis_passes m1 m2 (get_article_content_one .navFail a)).full_content =
      some "Content extraction failed - page could not be loaded" ∧
    (analysis_passes m1 m2 (get_article_content_one .navFail a)).mention_count = some 0 ∧
    (analysis_passes m1 m2 (get_article_content_one .navFail a)).relevant_paragraphs = some [] ∧
    (analysis_passes m1 m2 (get_article_content_one .navFail a)).esg_theme_counts =
      some (0, 0, 0) ∧
    (analysis_passes m1 m2 (get_article_content_one .navFail a)).primary_esg_focus =
      some "undetermined" ∧
    (analysis_passes m1 m2 (get_article_content_one .navFail a)).sentiment = some "neutral" ∧
    generate_report_aggregates [analysis_passes m1 m2 (get_article_content_one .navFail a)] =
      ((0, 0, 0),
       [("environmental", 0), ("social", 0), ("governance", 0), ("undetermined", 1)],
       [("positive", 0), ("neutral", 1), ("negative", 0)]) ∧
    (∀ (f : Nat → ContentFetch) (x : Article) (xs : List Article),
      get_article_content f (x :: xs) =
        get_article_content_one (f 0) x :: get_article_content (fun i => f (i + 1)) xs) := by
  have hsb : sentimentBucket (scoreOf 0 0) = "neutral" := by
    norm_num [scoreOf, sentimentBucket]
  have h3 := navfail_enriched a
  obtain ⟨p1, p2, p3, p4, p5, p6, p7, p8, p9⟩ := extract_quotes_one_preserves m1 m2
    (detect_sentiment_one (add_sustainable_finance_data_one (analyze_esg_themes_one
      (get_article_content_one .navFail a))))
  have hfc : (analysis_passes m1 m2 (get_article_content_one .navFail a)).full_content =
      some "Content extraction failed - page could not be loaded" := by
    simp only [analysis_passes]
    rw [p1, h3]
  have hmc : (analysis_passes m1 m2 (get_article_content_one .navFail a)).mention_count =
      some 0 := by
    simp only [analysis_passes]
    rw [p2, h3]
  have hrp : (analysis_passes m1 m2 (get_article_content_one .navFail a)).relevant_paragraphs =
      some [] := by
    simp only [analysis_passes]
    rw [p3, h3]
  have hth : (analysis_passes m1 m2 (get_article_content_one .navFail a)).esg_theme_counts =
      some (0, 0, 0) := by
    simp only [analysis_passes]
    rw [p4, h3]
  have hpf : (analysis_passes m1 m2 (get_article_content_one .navFail a)).primary_esg_focus =
      some "undetermined" := by
    simp only [analysis_passes]
    rw [p5, h3]
  have hse : (analysis_passes m1 m2 (get_article_content_one .navFail a)).sentiment =
      some "neutral" := by
    simp only [analysis_passes]
    rw [p7, h3]
    simp only [hsb]
  refine ⟨hfc, hmc, hrp, hth, hpf, hse, ?_, fun f x xs => rfl⟩
  simp only [generate_report_aggregates, List.foldl_cons, List.foldl_nil, hth, hpf, hse]
  decide

/-- Counterexample for C3: an article with no `full_content` key comes
out of all four analysis passes with every analysis field still absent
from the record, not set to a zero/empty default. -/
theorem missing_content_fields_absent :
    (analysis_passes (fun _ => []) (fun _ => []) (mkPending "L3")).esg_theme_counts = none ∧
    (analysis_passes (fun _ => []) (fun _ => []) (mkPending "L3")).esg_keywords = none ∧
    (analysis_passes (fun _ => []) (fun _ => []) (mkPending "L3")).primary_esg_focus = none ∧
    (analysis_passes (fun _ => []) (fun _ => []) (mkPending "L3")).sustainable_finance_mentions =
      none ∧
    (analysis_passes (fun _ => []) (fun _ => []) (mkPending "L3")).sentiment_score = none ∧
    (analysis_passes (fun _ => []) (fun _ => []) (mkPending "L3")).sentiment = none ∧
    (analysis_passes (fun _ => []) (fun _ => []) (mkPending "L3")).quotes = none ∧
    (analysis_passes (fun _ => []) (fun _ => []) (mkPending "L3")).quote_count = none ∧
    (analysis_passes (fun _ => []) (fun _ => []) (mkPending "L3")).esg_theme_counts ≠
      some (0, 0, 0) ∧
    (analysis_passes (fun _ => []) (fun _ => []) (mkPending "L3")).primary_esg_focus ≠
      some "undetermined" := by decide

/-- C3 amended: every analysis pass short-circuits on an article whose
`full_content` is absent or empty, returning the article unchanged (so
the analysis keys stay absent rather than being set to zero/empty
defaults) and raising nothing; the composition of all four passes is
likewise the identity on such an article. -/
theorem missing_content_passes_skip (a : Article) (m1 m2 : String → List (String × String))
    (h : a.full_content = none ∨ a.full_content = some "") :
    analyze_esg_themes_one a = a ∧
    add_sustainable_finance_data_one a = a ∧
    detect_sentiment_one a = a ∧
    extract_quotes_one m1 m2 a = a ∧
    analysis_passes m1 m2 a = a := by
  have k1 : analyze_esg_themes_one a = a := by
    rcases h with h | h <;> simp [analyze_esg_themes_one, h]
  have k2 : add_sustainable_finance_data_one a = a := by
    rcases h with h | h <;> simp [add_sustainable_finance_data_one, h]
  have k3 : detect_sentiment_one a = a := by
    rcases h with h | h <;> simp [detect_sentiment_one, h]
  have k4 : extract_quotes_one m1 m2 a = a := by
    rcases h with h | h <;> simp [extract_quotes_one, h]
  refine ⟨k1, k2, k3, k4, ?_⟩
  simp only [analysis_passes, k1, k2, k3, k4]

/-- Witness for the amended C3: the fixture with no `full_content`
key. -/
theorem missing_content_passes_skip_witness :
    ((mkPending "w3a").full_content = none ∨ (mkPending "w3a").full_content = some "") ∧
    (analyze_esg_themes_one (mkPending "w3a") = mkPending "w3a" ∧
     add_sustainable_finance_data_one (mkPending "w3a") = mkPending "w3a" ∧
     detect_sentiment_one (mkPending "w3a") = mkPending "w3a" ∧
     extract_quotes_one (fun _ => []) (fun _ => []) (mkPending "w3a") = mkPending "w3a" ∧
     analysis_passes (fun _ => []) (fun _ => []) (mkPending "w3a") = mkPending "w3a") :=
  ⟨Or.inl rfl,
   missing_content_passes_skip (mkPending "w3a") (fun _ => []) (fun _ => []) (Or.inl rfl)⟩

/-- Counterexample for C6: in the content "positive news today" the
word "positive" occurs once as a whitespace-delimited token, but
`detect_sentiment` counts space-padded substrings and finds none. -/
theorem sentiment_token_count_cex :
    (detect_sentiment_one (mkArticle "L6" "positive news today")).positive_words = some 0 ∧
    claimTokenCount positive_words "positive news today" = 1 ∧
    (detect_sentiment_one (mkArticle "L6" "positive news today")).positive_words ≠
      some (claimTokenCount positive_words "positive news today") := by decide

/-- C6 amended: the counts used by `detect_sentiment` equal, for each
word of the respective static list, the number of non-overlapping
occurrences of the word padded with one space on each side as a
substring of the lowercased content, summed over the list; an
occurrence not flanked by a literal space on both sides — at the very
start or end of the content, or next to punctuation or other
whitespace — is not counted. -/
theorem detect_sentiment_counts (a : Article) (fc : String)
    (h1 : a.full_content = some fc) (h2 : fc ≠ "") :
    (detect_sentiment_one a).positive_words =
      some (positive_words.foldl
        (fun acc w => acc + countSubstr (" " ++ w ++ " ") (pyLower fc)) 0) ∧
    (detect_sentiment_one a).negative_words =
      some (negative_words.foldl
        (fun acc w => acc + countSubstr (" " ++ w ++ " ") (pyLower fc)) 0) ∧
    countSubstr " positive " "positive news" = 0 ∧
    countSubstr " positive " "very positive news" = 1 := by
  refine ⟨?_, ?_, by decide, by decide⟩
  · simp only [detect_sentiment_one, h1]
    rw [if_neg h2]
    rfl
  · simp only [detect_sentiment_one, h1]
    rw [if_neg h2]
    rfl

/-- Witness for the amended C6: two interior occurrences of "success"
are counted, and no other sentiment word occurs. -/
theorem detect_sentiment_counts_witness :
    ((mkArticle "w6" "a success b success c").full_content = some "a success b success c" ∧
      "a success b success c" ≠ "") ∧
    ((detect_sentiment_one (mkArticle "w6" "a success b success c")).positive_words =
      some (positive_words.foldl
        (fun acc w => acc + countSubstr (" " ++ w ++ " ") (pyLower "a success b success c")) 0) ∧
     (detect_sentiment_one (mkArticle "w6" "a success b success c")).negative_words =
      some (negative_words.foldl
        (fun acc w => acc + countSubstr (" " ++ w ++ " ") (pyLower "a success b success c")) 0) ∧
     countSubstr " positive " "positive news" = 0 ∧
     countSubstr " positive " "very positive news" = 1) ∧
    positive_words.foldl
      (fun acc w => acc + countSubstr (" " ++ w ++ " ") (pyLower "a success b success c")) 0 = 2 :=
  ⟨⟨rfl, by decide⟩,
   detect_sentiment_counts (mkArticle "w6" "a success b success c") "a success b success c"
     rfl (by decide),
   by decide⟩
